import Mathlib

/-!
Shallow embedding of go-bigq (src/service.go) and verification of its
specification claims.

The repository is a thin client around the BigQuery v2 API. The file
service.go holds: the Config / Service types, the constructor New, the
Service.Query entry point, the helpers requestQuery, waitForJob and
queryArgs. The backend (google.golang.org/api/bigquery/v2) is an external
collaborator; it is modelled by an oracle giving the outcome of each call,
and every function that talks to it also returns the trace of the backend
calls it issued, so that claims about "no network call is made" become
statements about the trace.

Go error values (errors.New, fmt.Errorf) are modelled by a one-field
inductive carrying the message. Go uint64 values are modelled as Nat;
where the source converts to int64 (requestQuery line 75) the conversion
is modelled with explicit two's-complement wraparound.

The unbounded polling loop waitForJob is modelled with fuel: the fuel
bounds how many iterations are observed, and fuel exhaustion (result
none) means the source loop is still running after that many polls.
-/

namespace Bigq

/-- A Go error value as produced by errors.New or fmt.Errorf: it carries a
message string. -/
inductive GoError where
  | mk (message : String)
deriving Repr, DecidableEq

/-- Config (service.go lines 13-16): parameters needed for the configuration
of the service. -/
structure Config where
  datasetID : String
  projectID : String
deriving Repr, DecidableEq

/-- Abstract handle standing for a constructed bigquery.Service client
(the value built by ClientOptions.Service()). -/
structure BQService where
  handle : Nat
deriving Repr, DecidableEq

/-- Service (service.go lines 20-23): holds the config and the bigquery
client. -/
structure Service where
  config : Config
  service : BQService
deriving Repr, DecidableEq

/-- errInvalidConfig (service.go line 25). -/
def errInvalidConfig : GoError := .mk "dataset and project can not be empty"

/-- New (service.go lines 28-39). The source first calls
clientOptions.Service() and returns its error if it fails; only then does it
validate the config. ClientOptions.Service() lives outside src/, so the
factory is modelled by its outcome, passed in as a value: consulting the
factory is reflected by the fact that New's result depends on that outcome
even when the config is invalid. -/
def New (clientOptionsService : Except GoError BQService) (config : Config) :
    Except GoError Service :=
  match clientOptionsService with
  | .error err => .error err
  | .ok bqService =>
      if config.datasetID = "" ∨ config.projectID = "" then .error errInvalidConfig
      else .ok { config := config, service := bqService }

/-- queryArgs (service.go lines 100-113): positional parsing of the variadic
uint64 arguments into (start, maxResults). The Go switch with fallthrough
gives: 0 args -> (0, 0); 1 arg a -> (a, 0); 2 args a b -> (a, b);
otherwise the error "too many arguments given to query: n". -/
def queryArgs (args : List Nat) : Except GoError (Nat × Nat) :=
  match args with
  | [] => .ok (0, 0)
  | [a] => .ok (a, 0)
  | [a, b] => .ok (a, b)
  | _ => .error (.mk ("too many arguments given to query: " ++ toString args.length))

/-- The Go conversion int64(x) applied to a uint64 x: two's-complement
wraparound at 2 ^ 63. -/
def int64OfUint64 (n : Nat) : Int :=
  if n % 2 ^ 64 < 2 ^ 63 then ((n % 2 ^ 64 : Nat) : Int)
  else ((n % 2 ^ 64 : Nat) : Int) - 2 ^ 64

/-- bigquery.DatasetReference, restricted to the fields requestQuery sets. -/
structure DatasetReference where
  datasetId : String
  projectId : String
deriving Repr, DecidableEq

/-- bigquery.QueryRequest, restricted to the fields requestQuery sets.
MaxResults is a Go int64 whose zero value is 0; a value of 0 means the field
is omitted from the request (no result-limit hint). -/
structure QueryRequest where
  defaultDataset : DatasetReference
  query : String
  maxResults : Int
deriving Repr, DecidableEq

/-- requestQuery (service.go lines 65-79): the request value it builds and
hands to Jobs.Query(s.config.ProjectID, req). MaxResults keeps its zero
value unless maxResults > 0, in which case it is set to int64(maxResults). -/
def requestQueryReq (s : Service) (query : String) (maxResults : Nat) : QueryRequest :=
  if maxResults > 0 then
    { defaultDataset := { datasetId := s.config.datasetID, projectId := s.config.projectID },
      query := query,
      maxResults := int64OfUint64 maxResults }
  else
    { defaultDataset := { datasetId := s.config.datasetID, projectId := s.config.projectID },
      query := query,
      maxResults := 0 }

/-- bigquery.JobReference, restricted to the field Query reads. -/
structure JobReference where
  jobId : String
deriving Repr, DecidableEq

/-- One raw result row; the cell payload is opaque to this code. -/
structure TableRow where
  cells : List String
deriving Repr, DecidableEq

/-- bigquery.QueryResponse, restricted to the fields Query reads plus the
first-page payload it forwards to the cursor. -/
structure QueryResponse where
  jobComplete : Bool
  jobReference : JobReference
  rows : List TableRow
  pageToken : String
deriving Repr, DecidableEq

/-- bigquery.ErrorProto, restricted to the Message field waitForJob reads. -/
structure ErrorProto where
  message : String
deriving Repr, DecidableEq

/-- bigquery.JobStatus: the state string compared against "DONE" and the
optional ErrorResult payload. -/
structure JobStatus where
  state : String
  errorResult : Option ErrorProto
deriving Repr, DecidableEq

/-- bigquery.Job, restricted to the Status field waitForJob reads. -/
structure Job where
  status : JobStatus
deriving Repr, DecidableEq

/-- One backend (network) call issued by the service: the query submission
Jobs.Query(projectID, req).Do() or a status poll
Jobs.Get(projectID, jobID).Do(). -/
inductive BackendCall where
  | jobsQuery (projectID : String) (req : QueryRequest)
  | jobsGet (projectID : String) (jobID : String)
deriving Repr, DecidableEq

/-- Backend oracle: the outcome of the query submission for a given
(projectID, request), and the outcome of the i-th status poll for a given
(projectID, jobID). -/
structure Backend where
  jobsQueryDo : String → QueryRequest → Except GoError QueryResponse
  jobsGetDo : String → String → Nat → Except GoError Job

/-- waitForJob (service.go lines 81-98), driven by the stream of poll
outcomes, starting at poll index i with the given fuel. The source loop is
unbounded; none means the loop is still running after consuming the fuel.
On success the loop returns nil (here .ok ()); a poll transport error is
returned as-is; state "DONE" with an ErrorResult returns
errors.New(ErrorResult.Message). The Nat component is the total number of
Jobs.Get calls made (counting from poll index 0). -/
def waitForJobGo (poll : Nat → Except GoError Job) : Nat → Nat → Option (Except GoError Unit × Nat)
  | _, 0 => none
  | i, fuel + 1 =>
    match poll i with
    | .error err => some (.error err, i + 1)
    | .ok job =>
      if job.status.state = "DONE" then
        match job.status.errorResult with
        | some er => some (.error (.mk er.message), i + 1)
        | none => some (.ok (), i + 1)
      else waitForJobGo poll (i + 1) fuel

/-- Modelled from the spec: newQuery and the Query cursor live in query.go,
which is not under src/. Per the spec (sections 3 and 4.2) the cursor is
seeded with the backend client handle, the already-fetched first response
(first page), projectID, offset and pageSize; the call site (service.go
line 62) passes exactly newQuery(s.service, resp, s.config.ProjectID,
start, maxResults). -/
structure QueryCursor where
  service : BQService
  projectID : String
  offset : Nat
  pageSize : Nat
  firstResponse : QueryResponse
deriving Repr, DecidableEq

/-- Modelled from the spec: the cursor constructor stores its arguments as
the seed state of the cursor (spec sections 3 and 4.2). -/
def newQuery (service : BQService) (resp : QueryResponse) (projectID : String)
    (start maxResults : Nat) : QueryCursor :=
  { service := service, projectID := projectID, offset := start,
    pageSize := maxResults, firstResponse := resp }

/-- The trace of Jobs.Get calls issued by n iterations of waitForJob: the
same (projectID, jobID) pair each time. -/
def pollCalls (projectID jobID : String) (n : Nat) : List BackendCall :=
  List.replicate n (.jobsGet projectID jobID)

/-- The body of Service.Query after argument parsing (service.go lines
51-62): submit the request, poll if the job is not already complete, then
build the cursor from the submission response. Returns the call outcome
(none while the unbounded wait loop is still running after fuel polls)
together with the trace of backend calls issued. -/
def queryRun (s : Service) (b : Backend) (fuel : Nat) (query : String)
    (start maxResults : Nat) : Option (Except GoError QueryCursor) × List BackendCall :=
  match b.jobsQueryDo s.config.projectID (requestQueryReq s query maxResults) with
  | .error err =>
      (some (.error err),
       [BackendCall.jobsQuery s.config.projectID (requestQueryReq s query maxResults)])
  | .ok resp =>
      if resp.jobComplete then
        (some (.ok (newQuery s.service resp s.config.projectID start maxResults)),
         [BackendCall.jobsQuery s.config.projectID (requestQueryReq s query maxResults)])
      else
        match waitForJobGo (fun i => b.jobsGetDo s.config.projectID resp.jobReference.jobId i) 0 fuel with
        | none =>
            (none,
             BackendCall.jobsQuery s.config.projectID (requestQueryReq s query maxResults) ::
               pollCalls s.config.projectID resp.jobReference.jobId fuel)
        | some (.error err, n) =>
            (some (.error err),
             BackendCall.jobsQuery s.config.projectID (requestQueryReq s query maxResults) ::
               pollCalls s.config.projectID resp.jobReference.jobId n)
        | some (.ok _, n) =>
            (some (.ok (newQuery s.service resp s.config.projectID start maxResults)),
             BackendCall.jobsQuery s.config.projectID (requestQueryReq s query maxResults) ::
               pollCalls s.config.projectID resp.jobReference.jobId n)

/-- Service.Query (service.go lines 45-63): parse the variadic arguments,
then run the submission / wait / cursor-construction body. -/
def ServiceQuery (s : Service) (b : Backend) (fuel : Nat) (query : String)
    (args : List Nat) : Option (Except GoError QueryCursor) × List BackendCall :=
  match queryArgs args with
  | .error err => (some (.error err), [])
  | .ok (start, maxResults) => queryRun s b fuel query start maxResults

/-- The stopping condition of the waitForJob loop at poll index n: the poll
fails with a transport error, or succeeds with state "DONE". -/
def pollStops (poll : Nat → Except GoError Job) (n : Nat) : Prop :=
  (∃ e, poll n = .error e) ∨ ∃ j, poll n = .ok j ∧ j.status.state = "DONE"

/-! Sample concrete values used by the witness theorems. -/

/-- A concrete service over the config {dataset "ds", project "proj"}. -/
def svc0 : Service := { config := { datasetID := "ds", projectID := "proj" }, service := ⟨0⟩ }

/-- A submission response whose job completed immediately. -/
def respDone : QueryResponse :=
  { jobComplete := true, jobReference := ⟨"job-1"⟩, rows := [⟨["r1"]⟩], pageToken := "" }

/-- A submission response whose job is still running. -/
def respRunning : QueryResponse :=
  { jobComplete := false, jobReference := ⟨"job-1"⟩, rows := [], pageToken := "" }

/-- A job still running. -/
def jobRunning : Job := { status := { state := "RUNNING", errorResult := none } }

/-- A job done without error. -/
def jobDoneOk : Job := { status := { state := "DONE", errorResult := none } }

/-- A job done with an error payload. -/
def jobDoneErr : Job := { status := { state := "DONE", errorResult := some ⟨"query exploded"⟩ } }

/-- A backend whose submission completes immediately; polls fail. -/
def backendDone : Backend :=
  { jobsQueryDo := fun _ _ => .ok respDone,
    jobsGetDo := fun _ _ _ => .error (.mk "unexpected poll") }

/-- A backend whose submission leaves the job running; the first poll shows
RUNNING, the second DONE with an error payload. -/
def backendDoneErr : Backend :=
  { jobsQueryDo := fun _ _ => .ok respRunning,
    jobsGetDo := fun _ _ i => if i = 0 then .ok jobRunning else .ok jobDoneErr }

/-- A backend whose submission leaves the job running; the first poll shows
RUNNING, the second fails with a transport error. -/
def backendPollErr : Backend :=
  { jobsQueryDo := fun _ _ => .ok respRunning,
    jobsGetDo := fun _ _ i => if i = 0 then .ok jobRunning else .error (.mk "connection reset") }

/-- A backend whose submission leaves the job running; the first poll shows
RUNNING, the second DONE without error. -/
def backendDoneOk : Backend :=
  { jobsQueryDo := fun _ _ => .ok respRunning,
    jobsGetDo := fun _ _ i => if i = 0 then .ok jobRunning else .ok jobDoneOk }

/-! Helper lemmas about the polling loop. -/

/-- Unfold one iteration of the polling loop. -/
theorem waitForJobGo_succ (poll : Nat → Except GoError Job) (i fuel : Nat) :
    waitForJobGo poll i (fuel + 1) =
      match poll i with
      | .error err => some (.error err, i + 1)
      | .ok job =>
        if job.status.state = "DONE" then
          match job.status.errorResult with
          | some er => some (.error (.mk er.message), i + 1)
          | none => some (.ok (), i + 1)
        else waitForJobGo poll (i + 1) fuel := rfl

/-- If the first n polls from index i succeed with a non-DONE state, the
loop runs through them and continues from index i + n. -/
theorem waitForJobGo_skip (poll : Nat → Except GoError Job) :
    ∀ (n i fuel : Nat),
      (∀ k, k < n → ∃ j, poll (i + k) = .ok j ∧ j.status.state ≠ "DONE") →
      waitForJobGo poll i (n + (fuel + 1)) = waitForJobGo poll (i + n) (fuel + 1) := by
  intro n
  induction n with
  | zero => intro i fuel _; simp
  | succ m ih =>
    intro i fuel h
    obtain ⟨j, hj, hns⟩ := h 0 (Nat.succ_pos m)
    rw [show m + 1 + (fuel + 1) = (m + (fuel + 1)) + 1 by omega, waitForJobGo_succ]
    rw [show i + 0 = i from rfl] at hj
    rw [hj]
    simp only [if_neg hns]
    rw [ih (i + 1) fuel (fun k hk => by
      obtain ⟨j', hj', hns'⟩ := h (k + 1) (by omega)
      exact ⟨j', by rw [show i + 1 + k = i + (k + 1) by omega]; exact hj', hns'⟩)]
    rw [show i + 1 + m = i + (m + 1) by omega]

/-! C1. -/

/-- C1 counterexample: with a config whose projectID and datasetID are both
empty and a client factory that fails, New returns the factory's error, not
ConfigError (errInvalidConfig) — the factory is consulted before the config
is validated, refuting the claim as stated. -/
theorem New_factory_consulted_counterexample :
    New (.error (.mk "client init failed")) { datasetID := "", projectID := "" } =
      .error (.mk "client init failed") ∧
    GoError.mk "client init failed" ≠ errInvalidConfig :=
  ⟨rfl, by decide⟩

/-- C1 (amended): for every config with empty projectID or empty datasetID,
New always fails: with ConfigError (errInvalidConfig) when the client
factory succeeds, and with the factory's own error when the factory fails —
the factory is consulted first, even on an invalid config. -/
theorem New_invalid_config_fails (fac : Except GoError BQService) (config : Config)
    (h : config.projectID = "" ∨ config.datasetID = "") :
    New fac config =
      .error (match fac with | .ok _ => errInvalidConfig | .error e => e) := by
  cases fac with
  | error e => rfl
  | ok bq =>
    show (if config.datasetID = "" ∨ config.projectID = "" then Except.error errInvalidConfig
      else Except.ok (Service.mk config bq)) = Except.error errInvalidConfig
    rw [if_pos (Or.symm h)]

/-- C1 witness: the amended theorem at the concrete config {dataset "ds",
project ""} with a succeeding factory. -/
theorem New_invalid_config_fails_witness :
    ((Config.mk "ds" "").projectID = "" ∨ (Config.mk "ds" "").datasetID = "") ∧
    New (.ok ⟨0⟩) (Config.mk "ds" "") = .error errInvalidConfig :=
  ⟨Or.inl rfl, New_invalid_config_fails (.ok ⟨0⟩) (Config.mk "ds" "") (Or.inl rfl)⟩

/-! C2. -/

/-- C2: any call to Service.Query with more than two variadic arguments
fails with the ArgumentError "too many arguments given to query: n" and
issues no backend call at all (the trace is empty). -/
theorem query_too_many_args (s : Service) (b : Backend) (fuel : Nat) (q : String)
    (args : List Nat) (h : 2 < args.length) :
    ServiceQuery s b fuel q args =
      (some (.error (.mk ("too many arguments given to query: " ++ toString args.length))),
       []) := by
  match args, h with
  | a :: b' :: c :: rest, _ => rfl

/-- C2 witness: Query with three arguments fails with the ArgumentError and
an empty backend trace. -/
theorem query_too_many_args_witness :
    2 < [(1 : Nat), 2, 3].length ∧
    ServiceQuery svc0 backendDone 0 "SELECT 1" [1, 2, 3] =
      (some (.error (.mk ("too many arguments given to query: " ++
        toString [(1 : Nat), 2, 3].length))), []) :=
  ⟨by decide, query_too_many_args svc0 backendDone 0 "SELECT 1" [1, 2, 3] (by decide)⟩

/-! C3. -/

/-- C3: queryArgs parses exactly as specified: zero arguments give
(0, 0), one argument a gives (a, 0), two arguments a b give (a, b). -/
theorem queryArgs_positional (a b : Nat) :
    queryArgs [] = .ok (0, 0) ∧ queryArgs [a] = .ok (a, 0) ∧ queryArgs [a, b] = .ok (a, b) :=
  ⟨rfl, rfl, rfl⟩

/-! C4. -/

/-- C4 counterexample: at pageSize = 2 ^ 63 (a valid uint64, and > 0) the
request does not carry a result-limit hint equal to pageSize: the Go
conversion int64(maxResults) wraps, and the MaxResults field of the built
request is -2 ^ 63, refuting the claim as stated. -/
theorem requestQuery_overflow_counterexample :
    (0 : Nat) < 2 ^ 63 ∧
    (requestQueryReq svc0 "SELECT 1" (2 ^ 63)).maxResults = -(2 ^ 63 : Int) ∧
    (requestQueryReq svc0 "SELECT 1" (2 ^ 63)).maxResults ≠ ((2 ^ 63 : Nat) : Int) := by
  refine ⟨by decide, ?_, ?_⟩ <;> decide

/-- C4 (amended): the request requestQuery builds is scoped to the
configured dataset and project and carries the SQL string; its MaxResults
field is the int64 wraparound of pageSize when pageSize > 0 (hence equal to
pageSize whenever pageSize < 2 ^ 63) and keeps the zero value 0 (no
result-limit hint) when pageSize = 0. -/
theorem requestQuery_request_spec (s : Service) (q : String) (ps : Nat) :
    (requestQueryReq s q ps).defaultDataset =
      { datasetId := s.config.datasetID, projectId := s.config.projectID } ∧
    (requestQueryReq s q ps).query = q ∧
    (requestQueryReq s q ps).maxResults = (if 0 < ps then int64OfUint64 ps else 0) ∧
    (0 < ps → ps < 2 ^ 63 → (requestQueryReq s q ps).maxResults = (ps : Int)) := by
  by_cases hp : ps > 0
  · unfold requestQueryReq
    rw [if_pos hp]
    refine ⟨rfl, rfl, (if_pos hp).symm, fun _ hlt => ?_⟩
    show int64OfUint64 ps = (ps : Int)
    unfold int64OfUint64
    rw [Nat.mod_eq_of_lt (by omega)]
    rw [if_pos hlt]
  · unfold requestQueryReq
    rw [if_neg hp]
    exact ⟨rfl, rfl, (if_neg hp).symm, fun hpos => absurd hpos hp⟩

/-- C4 witness: the amended theorem at pageSize = 10 on the concrete
service svc0. -/
theorem requestQuery_request_spec_witness :
    (requestQueryReq svc0 "SELECT 1" 10).defaultDataset =
      { datasetId := svc0.config.datasetID, projectId := svc0.config.projectID } ∧
    (requestQueryReq svc0 "SELECT 1" 10).query = "SELECT 1" ∧
    (requestQueryReq svc0 "SELECT 1" 10).maxResults = (if 0 < 10 then int64OfUint64 10 else 0) ∧
    (0 < 10 → 10 < 2 ^ 63 → (requestQueryReq svc0 "SELECT 1" 10).maxResults = ((10 : Nat) : Int)) :=
  requestQuery_request_spec svc0 "SELECT 1" 10

/-! C5. -/

/-- C5: when the submission response reports jobComplete = true,
Service.Query issues no poll (the trace is exactly the one Jobs.Query call)
and returns the cursor built by newQuery directly from that submission
response. -/
theorem query_jobComplete_no_polling (s : Service) (b : Backend) (fuel : Nat) (q : String)
    (args : List Nat) (start maxResults : Nat) (resp : QueryResponse)
    (hargs : queryArgs args = .ok (start, maxResults))
    (hresp : b.jobsQueryDo s.config.projectID (requestQueryReq s q maxResults) = .ok resp)
    (hdone : resp.jobComplete = true) :
    ServiceQuery s b fuel q args =
      (some (.ok (newQuery s.service resp s.config.projectID start maxResults)),
       [BackendCall.jobsQuery s.config.projectID (requestQueryReq s q maxResults)]) := by
  unfold ServiceQuery
  rw [hargs]
  show queryRun s b fuel q start maxResults = _
  unfold queryRun
  rw [hresp]
  simp [hdone]

/-- C5 witness: the theorem at the concrete backend backendDone, whose
submission completes immediately. -/
theorem query_jobComplete_no_polling_witness :
    respDone.jobComplete = true ∧
    ServiceQuery svc0 backendDone 7 "SELECT 1" [5, 10] =
      (some (.ok (newQuery svc0.service respDone svc0.config.projectID 5 10)),
       [BackendCall.jobsQuery svc0.config.projectID (requestQueryReq svc0 "SELECT 1" 10)]) :=
  ⟨rfl, query_jobComplete_no_polling svc0 backendDone 7 "SELECT 1" [5, 10] 5 10 respDone
    rfl rfl rfl⟩

/-! C6. -/

/-- C6: if the first n polls report a running job and poll n reports state
DONE with an error payload, the wait loop terminates in the failed state
(returning errors.New of the backend message after exactly n + 1 polls, for
any remaining fuel) and Service.Query fails with exactly that
backend-supplied message. -/
theorem query_done_with_error (s : Service) (b : Backend) (fuel : Nat) (q : String)
    (args : List Nat) (start maxResults n : Nat) (resp : QueryResponse) (job : Job)
    (er : ErrorProto)
    (hargs : queryArgs args = .ok (start, maxResults))
    (hresp : b.jobsQueryDo s.config.projectID (requestQueryReq s q maxResults) = .ok resp)
    (hnc : resp.jobComplete = false)
    (hbefore : ∀ k, k < n → ∃ j,
      b.jobsGetDo s.config.projectID resp.jobReference.jobId k = .ok j ∧
        j.status.state ≠ "DONE")
    (hn : b.jobsGetDo s.config.projectID resp.jobReference.jobId n = .ok job)
    (hstate : job.status.state = "DONE")
    (herr : job.status.errorResult = some er) :
    waitForJobGo (fun i => b.jobsGetDo s.config.projectID resp.jobReference.jobId i) 0
      (n + (fuel + 1)) = some (.error (.mk er.message), n + 1) ∧
    (ServiceQuery s b (n + (fuel + 1)) q args).1 = some (.error (.mk er.message)) := by
  have hwait : waitForJobGo (fun i => b.jobsGetDo s.config.projectID resp.jobReference.jobId i) 0
      (n + (fuel + 1)) = some (.error (.mk er.message), n + 1) := by
    rw [waitForJobGo_skip _ n 0 fuel (fun k hk => by simpa using hbefore k hk),
      Nat.zero_add, waitForJobGo_succ]
    simp [hn, hstate, herr]
  refine ⟨hwait, ?_⟩
  unfold ServiceQuery
  rw [hargs]
  show (queryRun s b (n + (fuel + 1)) q start maxResults).1 = _
  unfold queryRun
  rw [hresp]
  simp [hnc, hwait]

/-- C6 witness: the theorem at the concrete backend backendDoneErr (one
RUNNING poll, then DONE with the error payload "query exploded"). -/
theorem query_done_with_error_witness :
    (ServiceQuery svc0 backendDoneErr (1 + (0 + 1)) "SELECT 1" [5, 10]).1 =
      some (.error (.mk "query exploded")) :=
  (query_done_with_error svc0 backendDoneErr 0 "SELECT 1" [5, 10] 5 10 1
    respRunning jobDoneErr ⟨"query exploded"⟩ rfl rfl rfl
    (fun k hk => by
      have hk0 : k = 0 := by omega
      subst hk0
      exact ⟨jobRunning, rfl, by decide⟩)
    rfl rfl rfl).2

/-! C7. -/

/-- C7: a transport failure on a status poll aborts the wait immediately:
if the first n polls report a running job and poll n fails with err, then
Service.Query fails with exactly that error value and the backend trace is
the one submission followed by exactly n + 1 polls — no further status
check is attempted, whatever fuel remains. -/
theorem query_poll_error_aborts (s : Service) (b : Backend) (fuel : Nat) (q : String)
    (args : List Nat) (start maxResults n : Nat) (resp : QueryResponse) (err : GoError)
    (hargs : queryArgs args = .ok (start, maxResults))
    (hresp : b.jobsQueryDo s.config.projectID (requestQueryReq s q maxResults) = .ok resp)
    (hnc : resp.jobComplete = false)
    (hbefore : ∀ k, k < n → ∃ j,
      b.jobsGetDo s.config.projectID resp.jobReference.jobId k = .ok j ∧
        j.status.state ≠ "DONE")
    (hn : b.jobsGetDo s.config.projectID resp.jobReference.jobId n = .error err) :
    ServiceQuery s b (n + (fuel + 1)) q args =
      (some (.error err),
       BackendCall.jobsQuery s.config.projectID (requestQueryReq s q maxResults) ::
         pollCalls s.config.projectID resp.jobReference.jobId (n + 1)) := by
  have hwait : waitForJobGo (fun i => b.jobsGetDo s.config.projectID resp.jobReference.jobId i) 0
      (n + (fuel + 1)) = some (.error err, n + 1) := by
    rw [waitForJobGo_skip _ n 0 fuel (fun k hk => by simpa using hbefore k hk),
      Nat.zero_add, waitForJobGo_succ]
    simp [hn]
  unfold ServiceQuery
  rw [hargs]
  show queryRun s b (n + (fuel + 1)) q start maxResults = _
  unfold queryRun
  rw [hresp]
  simp [hnc, hwait]

/-- C7 witness: the theorem at the concrete backend backendPollErr (one
RUNNING poll, then the transport error "connection reset"), with two units
of unused fuel left. -/
theorem query_poll_error_aborts_witness :
    ServiceQuery svc0 backendPollErr (1 + (2 + 1)) "SELECT 1" [5, 10] =
      (some (.error (.mk "connection reset")),
       BackendCall.jobsQuery svc0.config.projectID (requestQueryReq svc0 "SELECT 1" 10) ::
         pollCalls svc0.config.projectID respRunning.jobReference.jobId (1 + 1)) :=
  query_poll_error_aborts svc0 backendPollErr 2 "SELECT 1" [5, 10] 5 10 1
    respRunning (.mk "connection reset") rfl rfl rfl
    (fun k hk => by
      have hk0 : k = 0 := by omega
      subst hk0
      exact ⟨jobRunning, rfl, by decide⟩)
    rfl

/-! C8. -/

/-- If the loop returned a value within some fuel, some poll stopped it. -/
theorem waitForJobGo_some_stops (poll : Nat → Except GoError Job) :
    ∀ (fuel i : Nat) (r : Except GoError Unit × Nat),
      waitForJobGo poll i fuel = some r → ∃ n, pollStops poll n := by
  intro fuel
  induction fuel with
  | zero => intro i r h; exact Option.noConfusion h
  | succ m ih =>
    intro i r h
    rw [waitForJobGo_succ] at h
    cases hp : poll i with
    | error e => exact ⟨i, Or.inl ⟨e, hp⟩⟩
    | ok j =>
      rw [hp] at h
      by_cases hd : j.status.state = "DONE"
      · exact ⟨i, Or.inr ⟨j, hp, hd⟩⟩
      · simp only [if_neg hd] at h
        exact ih (i + 1) r h

/-- If some poll stops the loop, enough fuel makes the loop return. -/
theorem waitForJobGo_stops_some (poll : Nat → Except GoError Job) :
    ∀ (n i : Nat), pollStops poll (i + n) →
      ∃ r, waitForJobGo poll i (n + 1) = some r := by
  intro n
  induction n with
  | zero =>
    intro i h
    rw [Nat.add_zero] at h
    rw [waitForJobGo_succ]
    rcases h with ⟨e, he⟩ | ⟨j, hj, hd⟩
    · rw [he]; exact ⟨_, rfl⟩
    · rw [hj]
      simp only [if_pos hd]
      cases herr : j.status.errorResult with
      | some er => exact ⟨_, rfl⟩
      | none => exact ⟨_, rfl⟩
  | succ m ih =>
    intro i h
    rw [waitForJobGo_succ]
    cases hp : poll i with
    | error e => exact ⟨_, rfl⟩
    | ok j =>
      by_cases hd : j.status.state = "DONE"
      · simp only [if_pos hd]
        cases herr : j.status.errorResult with
        | some er => exact ⟨_, rfl⟩
        | none => exact ⟨_, rfl⟩
      · simp only [if_neg hd]
        exact ih (i + 1) (by rw [show i + 1 + m = i + (m + 1) by omega]; exact h)

/-- If every poll succeeds with a non-DONE state, the loop never returns. -/
theorem waitForJobGo_no_stop_none (poll : Nat → Except GoError Job)
    (h : ∀ n, ∃ j, poll n = .ok j ∧ j.status.state ≠ "DONE") :
    ∀ (fuel i : Nat), waitForJobGo poll i fuel = none := by
  intro fuel
  induction fuel with
  | zero => intro i; rfl
  | succ m ih =>
    intro i
    obtain ⟨j, hj, hd⟩ := h i
    rw [waitForJobGo_succ, hj]
    simp only [if_neg hd]
    exact ih (i + 1)

/-- C8: the waitForJob loop has no iteration bound: it returns (for some
fuel) exactly when some poll fails with a transport error or reports state
DONE, and if every poll succeeds with a non-DONE state the loop returns
under no fuel at all — it never terminates. -/
theorem waitForJob_unbounded (poll : Nat → Except GoError Job) :
    ((∃ fuel r, waitForJobGo poll 0 fuel = some r) ↔ ∃ n, pollStops poll n) ∧
    ((∀ n, ∃ j, poll n = .ok j ∧ j.status.state ≠ "DONE") →
      ∀ fuel, waitForJobGo poll 0 fuel = none) := by
  refine ⟨⟨?_, ?_⟩, ?_⟩
  · rintro ⟨fuel, r, h⟩
    exact waitForJobGo_some_stops poll fuel 0 r h
  · rintro ⟨n, hn⟩
    obtain ⟨r, hr⟩ := waitForJobGo_stops_some poll n 0 (by rw [Nat.zero_add]; exact hn)
    exact ⟨n + 1, r, hr⟩
  · intro h fuel
    exact waitForJobGo_no_stop_none poll h fuel 0

/-- C8 witness: the iff of the theorem, applied at a poll stream whose
first poll fails, yields a returning loop. -/
theorem waitForJob_unbounded_witness :
    ∃ fuel r, waitForJobGo (fun _ => .error (.mk "boom")) 0 fuel = some r :=
  ((waitForJob_unbounded (fun _ => .error (.mk "boom"))).1).mpr
    ⟨0, Or.inl ⟨.mk "boom", rfl⟩⟩

/-! C9. -/

/-- Forget the offset field of a cursor (used to state that two Query
outcomes differ at most in the cursor offset). -/
def eraseOffset (c : QueryCursor) : QueryCursor :=
  { c with offset := 0 }

/-- C9: the offset argument is never sent to the backend: two Query calls
whose arguments parse to the same pageSize but different offsets issue the
identical backend trace (the submitted request depends only on the SQL,
the configured project/dataset, and pageSize) and give outcomes equal up to
the cursor offset; the offset only seeds the offset field of the returned
cursor. -/
theorem query_offset_not_sent (s : Service) (b : Backend) (fuel : Nat) (q : String)
    (args₁ args₂ : List Nat) (start₁ start₂ m : Nat)
    (h₁ : queryArgs args₁ = .ok (start₁, m))
    (h₂ : queryArgs args₂ = .ok (start₂, m)) :
    (ServiceQuery s b fuel q args₁).2 = (ServiceQuery s b fuel q args₂).2 ∧
    (ServiceQuery s b fuel q args₁).1.map (Except.map eraseOffset) =
      (ServiceQuery s b fuel q args₂).1.map (Except.map eraseOffset) ∧
    ∀ c, (ServiceQuery s b fuel q args₁).1 = some (.ok c) → c.offset = start₁ := by
  have e₁ : ServiceQuery s b fuel q args₁ = queryRun s b fuel q start₁ m := by
    unfold ServiceQuery; rw [h₁]
  have e₂ : ServiceQuery s b fuel q args₂ = queryRun s b fuel q start₂ m := by
    unfold ServiceQuery; rw [h₂]
  rw [e₁, e₂]
  unfold queryRun
  cases hresp : b.jobsQueryDo s.config.projectID (requestQueryReq s q m) with
  | error err => simp
  | ok resp =>
    by_cases hjc : resp.jobComplete = true
    · simp [hjc, newQuery, eraseOffset]
      rfl
    · simp only [Bool.not_eq_true] at hjc
      cases hw : waitForJobGo (fun i => b.jobsGetDo s.config.projectID resp.jobReference.jobId i)
          0 fuel with
      | none => simp [hjc, hw]
      | some r =>
        obtain ⟨res, nn⟩ := r
        cases res with
        | error err => simp [hjc, hw]
        | ok u =>
          simp [hjc, hw, newQuery, eraseOffset]
          rfl

/-- C9 witness: the theorem at the concrete argument lists [5, 10] and
[7, 10] (same pageSize 10, offsets 5 and 7). -/
theorem query_offset_not_sent_witness :
    (ServiceQuery svc0 backendDone 3 "SELECT 1" [5, 10]).2 =
      (ServiceQuery svc0 backendDone 3 "SELECT 1" [7, 10]).2 ∧
    (ServiceQuery svc0 backendDone 3 "SELECT 1" [5, 10]).1.map (Except.map eraseOffset) =
      (ServiceQuery svc0 backendDone 3 "SELECT 1" [7, 10]).1.map (Except.map eraseOffset) ∧
    ∀ c, (ServiceQuery svc0 backendDone 3 "SELECT 1" [5, 10]).1 = some (.ok c) →
      c.offset = 5 :=
  query_offset_not_sent svc0 backendDone 3 "SELECT 1" [5, 10] [7, 10] 5 7 10 rfl rfl

/-! C10. -/

/-- C10: when the submission response reports jobComplete = false and the
polling wait succeeds, Service.Query returns the cursor built by newQuery
from the original submission response — the seeded first page is the one
that response carried, and nothing is re-fetched after completion. -/
theorem query_seeds_original_response (s : Service) (b : Backend) (fuel n : Nat) (q : String)
    (args : List Nat) (start maxResults : Nat) (resp : QueryResponse)
    (hargs : queryArgs args = .ok (start, maxResults))
    (hresp : b.jobsQueryDo s.config.projectID (requestQueryReq s q maxResults) = .ok resp)
    (hnc : resp.jobComplete = false)
    (hwait : waitForJobGo (fun i => b.jobsGetDo s.config.projectID resp.jobReference.jobId i)
      0 fuel = some (.ok (), n)) :
    (ServiceQuery s b fuel q args).1 =
      some (.ok (newQuery s.service resp s.config.projectID start maxResults)) ∧
    (newQuery s.service resp s.config.projectID start maxResults).firstResponse = resp := by
  refine ⟨?_, rfl⟩
  unfold ServiceQuery
  rw [hargs]
  show (queryRun s b fuel q start maxResults).1 = _
  unfold queryRun
  rw [hresp]
  simp [hnc, hwait]

/-- C10 witness: the theorem at the concrete backend backendDoneOk (one
RUNNING poll, then DONE without error). -/
theorem query_seeds_original_response_witness :
    (ServiceQuery svc0 backendDoneOk 2 "SELECT 1" [5, 10]).1 =
      some (.ok (newQuery svc0.service respRunning svc0.config.projectID 5 10)) ∧
    (newQuery svc0.service respRunning svc0.config.projectID 5 10).firstResponse =
      respRunning :=
  query_seeds_original_response svc0 backendDoneOk 2 2 "SELECT 1" [5, 10] 5 10
    respRunning rfl rfl rfl rfl

end Bigq
